import Mathlib

/-!
Shallow embedding of `move_imported_files` (core.py, with the standalone
script `move-imported-files.py` as a second implementation) for checking
the natural-language specification against the code.

The filesystem is modelled as an explicit state (`FS`): a list of file
objects (path plus an abstract content tag) and a list of directory paths.
Runtime inputs that the Python code obtains from the environment — the
list of files produced by `os.walk`, the EXIF data `PIL` would read, the
`st_mtime` of each file, and the points at which `stat`, `mkdir` or
`shutil.move` would raise — are passed in as data on each walked file
entry.  String helpers (`pathSuffix`, lower-casing, splitting) are
re-implemented structurally on `List Char` so that every definition
evaluates inside the kernel.
-/

/-- Model of `datetime.datetime`: the fields the code reads. -/
structure DateTime where
  year : Nat
  month : Nat
  day : Nat
  hour : Nat
  minute : Nat
  second : Nat
deriving DecidableEq, Repr

/-- A file object in the modelled filesystem: a path and an abstract
content tag (two files are byte-for-byte equal iff the tags are equal). -/
structure FileObj where
  path : String
  content : Nat
deriving DecidableEq, Repr

/-- The modelled filesystem: existing files and existing directories. -/
structure FS where
  files : List FileObj
  dirs : List String
deriving DecidableEq, Repr

/-- One entry produced by walking `source_dir` (`os.walk`), together with
the environment data the Python code would obtain for it at run time:
the outcome of reading its EXIF block, its filesystem modification time,
and whether `stat`, `mkdir` or `shutil.move` would raise for it
(`some msg` = that call raises with message `msg`). -/
structure FileEntry where
  dir : String
  name : String
  exifRead : Option (Option String × Option String)
  mtime : DateTime
  statError : Option String
  mkdirError : Option String
  moveError : Option String
deriving DecidableEq, Repr

/-- `DUTCH_MONTHS` from core.py lines 12-16. -/
def DUTCH_MONTHS : List String :=
  ["01_januari", "02_februari", "03_maart", "04_april",
   "05_mei", "06_juni", "07_juli", "08_augustus",
   "09_september", "10_oktober", "11_november", "12_december"]

/-- `MEDIA_EXTENSIONS` from core.py lines 19-23 (a Python set; order is
irrelevant, membership is what the code uses). -/
def MEDIA_EXTENSIONS : List String :=
  [".jpg", ".jpeg", ".tiff", ".tif", ".png", ".heic", ".heif",
   ".gif", ".bmp", ".webp",
   ".mp4", ".mov", ".avi", ".mkv", ".3gp", ".mts", ".m4v"]

/-- The extensions for which `get_file_datetime` attempts an EXIF read
(core.py line 44). -/
def IMAGE_EXIF_EXTENSIONS : List String :=
  [".jpg", ".jpeg", ".tiff", ".tif", ".png", ".heic", ".heif"]

/-- ASCII lower-casing of one character (`str.lower` on the ASCII
extensions the code compares). -/
def charLower (c : Char) : Char :=
  if 'A' ≤ c ∧ c ≤ 'Z' then Char.ofNat (c.toNat + 32) else c

/-- ASCII `str.lower`. -/
def strLower (s : String) : String :=
  String.mk (s.data.map charLower)

/-- `pathlib.PurePath.suffix` on a file name: the extension from the last
dot, and `""` when the name has no dot, when the only dot is the leading
character, or when the name ends with the dot. -/
def pathSuffix (name : String) : String :=
  let cs := name.data
  let n := cs.length
  let tail := cs.reverse.takeWhile (fun c => ¬ (c = '.'))
  let tl := tail.length
  if tl = n then ""
  else if n - tl - 1 = 0 then ""
  else if tl = 0 then ""
  else String.mk ('.' :: tail.reverse)

/-- Split a character list at every occurrence of `sep`. -/
def splitOnChar (sep : Char) : List Char → List (List Char)
  | [] => [[]]
  | c :: cs =>
    let r := splitOnChar sep cs
    if c = sep then [] :: r
    else
      match r with
      | [] => [[c]]
      | g :: gs => (c :: g) :: gs

/-- Parse a list of decimal digits; `none` when empty or non-numeric. -/
def charsToNat (cs : List Char) : Option Nat :=
  if cs = [] then none
  else if cs.all (fun c => c.isDigit) then
    some (cs.foldl (fun n c => n * 10 + (c.toNat - 48)) 0)
  else none

/-- `datetime.datetime.strptime(date_str, "%Y:%m:%d %H:%M:%S")`, returning
`none` where strptime would raise `ValueError` (wrong shape, non-numeric
fields, out-of-range fields; the day-of-month bound is the uniform 1-31
approximation of strptime's calendar check). -/
def parseExifDatetime (s : String) : Option DateTime :=
  match splitOnChar ' ' s.data with
  | [d, t] =>
    match splitOnChar ':' d, splitOnChar ':' t with
    | [ys, mos, das], [hs, mis, ses] =>
      match charsToNat ys, charsToNat mos, charsToNat das,
            charsToNat hs, charsToNat mis, charsToNat ses with
      | some y, some mo, some da, some h, some mi, some se =>
        if 1 ≤ mo ∧ mo ≤ 12 ∧ 1 ≤ da ∧ da ≤ 31 ∧ h ≤ 23 ∧ mi ≤ 59 ∧ se ≤ 61 then
          some ⟨y, mo, da, h, mi, se⟩
        else none
      | _, _, _, _, _, _ => none
    | _, _ => none
  | _ => none

/-- Python truthiness of `dict.get` results: `None` and `""` are falsy. -/
def truthy : Option String → Bool
  | none => false
  | some s => ¬ (s = "")

/-- `get_exif_datetime_taken` (core.py lines 26-39).  `f.exifRead = none`
models `Image.open`/`_getexif` raising or a falsy EXIF dict (both return
`None` in the code); `some (orig, dtv)` gives the `DateTimeOriginal` and
`DateTime` fields.  `date_str = orig or dtv` is Python `or`; a parse
failure is swallowed by the `except` and returns `None`. -/
def get_exif_datetime_taken (f : FileEntry) : Option DateTime :=
  match f.exifRead with
  | none => none
  | some (orig, dtv) =>
    let date_str := if truthy orig then orig else dtv
    if truthy date_str then
      match date_str with
      | some s => parseExifDatetime s
      | none => none
    else none

/-- `path.stat().st_mtime` followed by `datetime.fromtimestamp`: returns
the entry's modification time, or raises (`Except.error`) when `stat`
raises for this entry. -/
def statMtime (f : FileEntry) : Except String DateTime :=
  match f.statError with
  | some msg => Except.error msg
  | none => Except.ok f.mtime

/-- `get_file_datetime` (core.py lines 42-48): EXIF date for the image
extensions when available, otherwise the filesystem modification time. -/
def get_file_datetime (f : FileEntry) : Except String DateTime :=
  if IMAGE_EXIF_EXTENSIONS.contains (strLower (pathSuffix f.name)) then
    match get_exif_datetime_taken f with
    | some dt => Except.ok dt
    | none => statMtime f
  else statMtime f

/-- `month_folder_name` (core.py lines 51-53): `DUTCH_MONTHS[dt.month - 1]`.
Python would raise `IndexError` outside 1-12; `datetime` guarantees the
month is in range, so the `getD` default is never reached on real inputs. -/
def month_folder_name (dt : DateTime) : String :=
  DUTCH_MONTHS.getD (dt.month - 1) ""

/-- All the directories `Path(d).mkdir(parents=True)` ensures exist:
every prefix of `d` at a `/` boundary, including `d` itself. -/
def pathPrefixes (d : String) : List String :=
  let parts := splitOnChar '/' d.data
  (List.range parts.length).map
    (fun i => String.mk (List.intercalate ['/'] (parts.take (i + 1))))

/-- Add a directory to the directory list if absent (`exist_ok=True`). -/
def insertDir (dirs : List String) (d : String) : List String :=
  if dirs.contains d then dirs else dirs.concat d

/-- `Path(d).mkdir(parents=True, exist_ok=True)` on the modelled
filesystem. -/
def mkdirParents (fs : FS) (d : String) : FS :=
  { fs with dirs := (pathPrefixes d).foldl insertDir fs.dirs }

/-- `Path(p).exists()` restricted to files (the only use in the code is on
a would-be destination file path). -/
def fileExists (fs : FS) (p : String) : Bool :=
  fs.files.any (fun o => o.path == p)

/-- `shutil.move(src, dest)` on the modelled filesystem: the object at
`src` reappears at `dest` with the same content. -/
def moveFile (fs : FS) (src dest : String) : FS :=
  match fs.files.find? (fun o => o.path == src) with
  | some o =>
    { fs with files := (fs.files.filter (fun o2 => ¬ (o2.path = src))) ++ [⟨dest, o.content⟩] }
  | none => fs

/-- `open(p, "w")` + write: the file at `p` now has content `c`. -/
def writeFile (fs : FS) (p : String) (c : Nat) : FS :=
  { fs with files := (fs.files.filter (fun o => ¬ (o.path = p))) ++ [⟨p, c⟩] }

/-- One recorded conflict (core.py line 98). -/
structure Conflict where
  source : String
  destination : String
deriving DecidableEq, Repr

/-- One recorded per-file error (core.py line 113). -/
structure ErrEntry where
  file : String
  error : String
deriving DecidableEq, Repr

/-- The accumulating state of one `move_files` run: the counters and
lists of core.py lines 62-65 plus the filesystem. -/
structure RunState where
  scanned : Nat
  moved : Nat
  skipped_aae : Nat
  skipped_non_media : Nat
  skipped_non_media_files : List String
  conflicts : List Conflict
  errors : List ErrEntry
  fs : FS
deriving DecidableEq, Repr

/-- The dict returned by `move_files` (core.py lines 143-152). -/
structure OperationResult where
  scanned : Nat
  moved : Nat
  skipped_aae : Nat
  skipped_non_media : Nat
  skipped_non_media_files : List String
  conflicts : List Conflict
  errors : List ErrEntry
  log : String
deriving DecidableEq, Repr

/-- The source path `Path(root) / fname` of a walked entry. -/
def srcPath (f : FileEntry) : String :=
  f.dir ++ "/" ++ f.name

/-- The destination directory `base_target / year / month_folder`
(core.py lines 91-93). -/
def destDirOf (base : String) (dt : DateTime) : String :=
  base ++ "/" ++ toString dt.year ++ "/" ++ month_folder_name dt

/-- The body of the `for fname in files` loop of `move_files`
(core.py lines 68-115), acting on one walked entry.  The `verbose`
prints are pure console output and are not modelled. -/
def processFile (base : String) (dry_run : Bool) (st : RunState) (f : FileEntry) : RunState :=
  let ext := strLower (pathSuffix f.name)
  let src := srcPath f
  if ext = ".aae" then
    { st with scanned := st.scanned + 1, skipped_aae := st.skipped_aae + 1 }
  else if ¬ (ext ∈ MEDIA_EXTENSIONS) then
    { st with scanned := st.scanned + 1,
              skipped_non_media := st.skipped_non_media + 1,
              skipped_non_media_files := st.skipped_non_media_files ++ [src] }
  else
    match get_file_datetime f with
    | Except.error msg =>
      { st with scanned := st.scanned + 1, errors := st.errors ++ [⟨src, msg⟩] }
    | Except.ok dt =>
      match f.mkdirError with
      | some msg =>
        { st with scanned := st.scanned + 1, errors := st.errors ++ [⟨src, msg⟩] }
      | none =>
        let destDir := destDirOf base dt
        let fs1 := mkdirParents st.fs destDir
        let dest := destDir ++ "/" ++ f.name
        if fileExists fs1 dest then
          { st with scanned := st.scanned + 1, fs := fs1,
                    conflicts := st.conflicts ++ [⟨src, dest⟩] }
        else if dry_run then
          { st with scanned := st.scanned + 1, fs := fs1 }
        else
          match f.moveError with
          | some msg =>
            { st with scanned := st.scanned + 1, fs := fs1,
                      errors := st.errors ++ [⟨src, msg⟩] }
          | none =>
            { st with scanned := st.scanned + 1, fs := moveFile fs1 src dest,
                      moved := st.moved + 1 }

/-- The fresh accumulators of core.py lines 62-65. -/
def initState (fs : FS) : RunState :=
  { scanned := 0, moved := 0, skipped_aae := 0, skipped_non_media := 0,
    skipped_non_media_files := [], conflicts := [], errors := [], fs := fs }

/-- The `os.walk` double loop of core.py lines 67-115 over the flattened
walk order. -/
def walkFold (base : String) (dry_run : Bool) (st : RunState) (walk : List FileEntry) : RunState :=
  walk.foldl (processFile base dry_run) st

/-- The log directory `base_target / "_move_logs"` (core.py line 118). -/
def logDirOf (base : String) : String :=
  base ++ "/_move_logs"

/-- The log path (core.py line 120); `now` is the formatted
`datetime.datetime.now()` timestamp, a runtime input. -/
def logPathOf (base now : String) : String :=
  logDirOf base ++ "/move_log_" ++ now ++ ".txt"

/-- Abstract content tag for the freshly written log file (the log text
itself is console-style reporting; no claim inspects it). -/
def logContent : Nat := 0

/-- `move_files` (core.py lines 56-152).  The walk listing, the per-file
environment data and the `now` timestamp are runtime inputs; `source_dir`
existing as a directory is modelled as membership in `fs.dirs`.  Returns
the result (or the raised `FileNotFoundError` as `Except.error`) together
with the final filesystem. -/
def move_files (source_dir : String) (walk : List FileEntry) (base_target : String)
    (dry_run : Bool) (now : String) (fs : FS) :
    Except String OperationResult × FS :=
  if ¬ (fs.dirs.contains source_dir) then
    (Except.error ("Source directory not found: " ++ source_dir), fs)
  else
    let st := walkFold base_target dry_run (initState fs) walk
    let fs1 := mkdirParents st.fs (logDirOf base_target)
    let log_path := logPathOf base_target now
    let fs2 := writeFile fs1 log_path logContent
    (Except.ok
      { scanned := st.scanned, moved := st.moved, skipped_aae := st.skipped_aae,
        skipped_non_media := st.skipped_non_media,
        skipped_non_media_files := st.skipped_non_media_files,
        conflicts := st.conflicts, errors := st.errors, log := log_path }, fs2)

/-- Projection of a `move_files` outcome to its result record (a default
record on the error case; theorems assert `Except.ok` separately). -/
def getResult (p : Except String OperationResult × FS) : OperationResult :=
  match p.1 with
  | Except.ok res => res
  | Except.error _ =>
    { scanned := 0, moved := 0, skipped_aae := 0, skipped_non_media := 0,
      skipped_non_media_files := [], conflicts := [], errors := [], log := "" }

/-- The sum of the outcome buckets of one run (spec invariant). -/
def bucketSum (r : OperationResult) : Nat :=
  r.moved + r.skipped_aae + r.skipped_non_media + r.conflicts.length + r.errors.length

/-- The CLI's bounded preview of skipped non-media paths
(cli.py line 26: `result["skipped_non_media_files"][:20]`). -/
def cliPreview (r : OperationResult) : List String :=
  r.skipped_non_media_files.take 20

/-! ## The standalone script `move-imported-files.py`

The second implementation of `move_files`.  Its helpers
(`DUTCH_MONTHS`, `MEDIA_EXTENSIONS`, `get_exif_datetime_taken`,
`get_file_datetime`, `month_folder_name`) are textually identical to
core.py's, so the definitions above are shared; the organizer differs:
no `scanned` counter, no list of skipped non-media paths, no `verbose`
flag, and a missing source directory prints a message and returns `None`
instead of raising. -/

/-- The accumulating state of one script run (script lines 85-86). -/
structure ScriptState where
  moved : Nat
  skipped_aae : Nat
  skipped_non_media : Nat
  conflicts : List Conflict
  errors : List ErrEntry
  fs : FS
deriving DecidableEq, Repr

/-- The summary the script prints and logs (script lines 158-165).  The
Python function returns `None`; these counters are its observable
output, so the model returns them as a record. -/
structure ScriptSummary where
  moved : Nat
  skipped_aae : Nat
  skipped_non_media : Nat
  conflicts : List Conflict
  errors : List ErrEntry
  log : String
deriving DecidableEq, Repr

/-- The body of the `for fname in files` loop of the script
(lines 93-129). -/
def processFileScript (base : String) (dry_run : Bool) (st : ScriptState) (f : FileEntry) :
    ScriptState :=
  let ext := strLower (pathSuffix f.name)
  let src := srcPath f
  if ext = ".aae" then
    { st with skipped_aae := st.skipped_aae + 1 }
  else if ¬ (ext ∈ MEDIA_EXTENSIONS) then
    { st with skipped_non_media := st.skipped_non_media + 1 }
  else
    match get_file_datetime f with
    | Except.error msg => { st with errors := st.errors ++ [⟨src, msg⟩] }
    | Except.ok dt =>
      match f.mkdirError with
      | some msg => { st with errors := st.errors ++ [⟨src, msg⟩] }
      | none =>
        let destDir := destDirOf base dt
        let fs1 := mkdirParents st.fs destDir
        let dest := destDir ++ "/" ++ f.name
        if fileExists fs1 dest then
          { st with fs := fs1, conflicts := st.conflicts ++ [⟨src, dest⟩] }
        else if dry_run then
          { st with fs := fs1 }
        else
          match f.moveError with
          | some msg => { st with fs := fs1, errors := st.errors ++ [⟨src, msg⟩] }
          | none => { st with fs := moveFile fs1 src dest, moved := st.moved + 1 }

/-- `move_files` of the script (lines 77-165).  A missing source
directory prints an error and returns `None` (modelled as `none`,
filesystem unchanged); otherwise it walks, logs, prints the summary and
returns `None` (modelled as `some` of the printed summary). -/
def move_files_script (source_dir : String) (walk : List FileEntry) (base_target : String)
    (dry_run : Bool) (now : String) (fs : FS) :
    Option ScriptSummary × FS :=
  if ¬ (fs.dirs.contains source_dir) then
    (none, fs)
  else
    let st0 : ScriptState :=
      { moved := 0, skipped_aae := 0, skipped_non_media := 0,
        conflicts := [], errors := [], fs := fs }
    let st := walk.foldl (processFileScript base_target dry_run) st0
    let fs1 := mkdirParents st.fs (logDirOf base_target)
    let log_path := logPathOf base_target now
    let fs2 := writeFile fs1 log_path logContent
    (some
      { moved := st.moved, skipped_aae := st.skipped_aae,
        skipped_non_media := st.skipped_non_media,
        conflicts := st.conflicts, errors := st.errors, log := log_path }, fs2)


theorem fileExists_mkdirParents (fs : FS) (d p : String) :
    fileExists (mkdirParents fs d) p = fileExists fs p := rfl

theorem processFile_nonmedia (b : String) (d : Bool) (st : RunState) (f : FileEntry)
    (haae : ¬ (strLower (pathSuffix f.name) = ".aae"))
    (hext : ¬ (strLower (pathSuffix f.name) ∈ MEDIA_EXTENSIONS)) :
    processFile b d st f =
      { st with scanned := st.scanned + 1,
                skipped_non_media := st.skipped_non_media + 1,
                skipped_non_media_files := st.skipped_non_media_files ++ [srcPath f] } := by
  simp [processFile, haae, hext]

theorem processFile_resolve_error (b : String) (d : Bool) (st : RunState) (f : FileEntry)
    (msg : String)
    (haae : ¬ (strLower (pathSuffix f.name) = ".aae"))
    (hext : strLower (pathSuffix f.name) ∈ MEDIA_EXTENSIONS)
    (hdt : get_file_datetime f = Except.error msg) :
    processFile b d st f =
      { st with scanned := st.scanned + 1, errors := st.errors ++ [⟨srcPath f, msg⟩] } := by
  simp [processFile, haae, hext, hdt]

theorem processFile_mkdir_error (b : String) (d : Bool) (st : RunState) (f : FileEntry)
    (dt : DateTime) (msg : String)
    (haae : ¬ (strLower (pathSuffix f.name) = ".aae"))
    (hext : strLower (pathSuffix f.name) ∈ MEDIA_EXTENSIONS)
    (hdt : get_file_datetime f = Except.ok dt)
    (hmk : f.mkdirError = some msg) :
    processFile b d st f =
      { st with scanned := st.scanned + 1, errors := st.errors ++ [⟨srcPath f, msg⟩] } := by
  simp [processFile, haae, hext, hdt, hmk]

theorem processFile_conflict (b : String) (d : Bool) (st : RunState) (f : FileEntry)
    (dt : DateTime)
    (haae : ¬ (strLower (pathSuffix f.name) = ".aae"))
    (hext : strLower (pathSuffix f.name) ∈ MEDIA_EXTENSIONS)
    (hdt : get_file_datetime f = Except.ok dt)
    (hmk : f.mkdirError = none)
    (hconf : fileExists st.fs (destDirOf b dt ++ "/" ++ f.name) = true) :
    processFile b d st f =
      { st with scanned := st.scanned + 1,
                fs := mkdirParents st.fs (destDirOf b dt),
                conflicts := st.conflicts ++ [⟨srcPath f, destDirOf b dt ++ "/" ++ f.name⟩] } := by
  simp [processFile, haae, hext, hdt, hmk, fileExists_mkdirParents, hconf]

theorem processFile_dry_sim (b : String) (st : RunState) (f : FileEntry)
    (dt : DateTime)
    (haae : ¬ (strLower (pathSuffix f.name) = ".aae"))
    (hext : strLower (pathSuffix f.name) ∈ MEDIA_EXTENSIONS)
    (hdt : get_file_datetime f = Except.ok dt)
    (hmk : f.mkdirError = none)
    (hconf : fileExists st.fs (destDirOf b dt ++ "/" ++ f.name) = false) :
    processFile b true st f =
      { st with scanned := st.scanned + 1, fs := mkdirParents st.fs (destDirOf b dt) } := by
  simp [processFile, haae, hext, hdt, hmk, fileExists_mkdirParents, hconf]

theorem processFile_move_error (b : String) (st : RunState) (f : FileEntry)
    (dt : DateTime) (msg : String)
    (haae : ¬ (strLower (pathSuffix f.name) = ".aae"))
    (hext : strLower (pathSuffix f.name) ∈ MEDIA_EXTENSIONS)
    (hdt : get_file_datetime f = Except.ok dt)
    (hmk : f.mkdirError = none)
    (hconf : fileExists st.fs (destDirOf b dt ++ "/" ++ f.name) = false)
    (hmv : f.moveError = some msg) :
    processFile b false st f =
      { st with scanned := st.scanned + 1,
                fs := mkdirParents st.fs (destDirOf b dt),
                errors := st.errors ++ [⟨srcPath f, msg⟩] } := by
  simp [processFile, haae, hext, hdt, hmk, fileExists_mkdirParents, hconf, hmv]

theorem processFile_move_ok (b : String) (st : RunState) (f : FileEntry)
    (dt : DateTime)
    (haae : ¬ (strLower (pathSuffix f.name) = ".aae"))
    (hext : strLower (pathSuffix f.name) ∈ MEDIA_EXTENSIONS)
    (hdt : get_file_datetime f = Except.ok dt)
    (hmk : f.mkdirError = none)
    (hconf : fileExists st.fs (destDirOf b dt ++ "/" ++ f.name) = false)
    (hmv : f.moveError = none) :
    processFile b false st f =
      { st with scanned := st.scanned + 1, moved := st.moved + 1,
                fs := moveFile (mkdirParents st.fs (destDirOf b dt)) (srcPath f)
                        (destDirOf b dt ++ "/" ++ f.name) } := by
  simp [processFile, haae, hext, hdt, hmk, fileExists_mkdirParents, hconf, hmv]

theorem processFile_aae (b : String) (d : Bool) (st : RunState) (f : FileEntry)
    (haae : strLower (pathSuffix f.name) = ".aae") :
    processFile b d st f =
      { st with scanned := st.scanned + 1, skipped_aae := st.skipped_aae + 1 } := by
  simp [processFile, haae]

/-- The sum of the outcome buckets of an accumulating state. -/
def stateBucketSum (st : RunState) : Nat :=
  st.moved + st.skipped_aae + st.skipped_non_media + st.conflicts.length + st.errors.length

theorem processFile_bucket (b : String) (st : RunState) (f : FileEntry) :
    stateBucketSum (processFile b false st f) = stateBucketSum st + 1 := by
  simp only [processFile]
  repeat' split
  all_goals simp_all [stateBucketSum]
  all_goals omega

theorem processFile_errors_ext (b : String) (d : Bool) (st : RunState) (f : FileEntry) :
    ∃ tail, (processFile b d st f).errors = st.errors ++ tail := by
  simp only [processFile]
  repeat' split
  all_goals first
    | exact ⟨_, rfl⟩
    | exact ⟨[], (List.append_nil _).symm⟩

theorem processFile_scanned (b : String) (d : Bool) (st : RunState) (f : FileEntry) :
    (processFile b d st f).scanned = st.scanned + 1 := by
  simp only [processFile]
  repeat' split
  all_goals rfl

theorem processFile_moved_dry (b : String) (st : RunState) (f : FileEntry) :
    (processFile b true st f).moved = st.moved := by
  simp only [processFile]
  repeat' split
  all_goals first | rfl | simp_all

theorem processFile_files_dry (b : String) (st : RunState) (f : FileEntry) :
    (processFile b true st f).fs.files = st.fs.files := by
  simp only [processFile]
  repeat' split
  all_goals first | rfl | simp_all [mkdirParents]

theorem walkFold_cons (b : String) (d : Bool) (st : RunState) (f : FileEntry)
    (rest : List FileEntry) :
    walkFold b d st (f :: rest) = walkFold b d (processFile b d st f) rest := rfl

theorem walkFold_scanned (b : String) (d : Bool) (walk : List FileEntry) (st : RunState) :
    (walkFold b d st walk).scanned = st.scanned + walk.length := by
  induction walk generalizing st with
  | nil => rfl
  | cons f rest ih =>
    rw [walkFold_cons, ih, processFile_scanned]
    simp [Nat.add_comm, Nat.add_assoc, Nat.add_left_comm]

theorem walkFold_bucket (b : String) (walk : List FileEntry) (st : RunState) :
    stateBucketSum (walkFold b false st walk) = stateBucketSum st + walk.length := by
  induction walk generalizing st with
  | nil => rfl
  | cons f rest ih =>
    rw [walkFold_cons, ih, processFile_bucket]
    simp [Nat.add_comm, Nat.add_assoc, Nat.add_left_comm]

theorem walkFold_moved_dry (b : String) (walk : List FileEntry) (st : RunState) :
    (walkFold b true st walk).moved = st.moved := by
  induction walk generalizing st with
  | nil => rfl
  | cons f rest ih => rw [walkFold_cons, ih, processFile_moved_dry]

theorem walkFold_files_dry (b : String) (walk : List FileEntry) (st : RunState) :
    (walkFold b true st walk).fs.files = st.fs.files := by
  induction walk generalizing st with
  | nil => rfl
  | cons f rest ih => rw [walkFold_cons, ih, processFile_files_dry]

theorem walkFold_errors_ext (b : String) (d : Bool) (walk : List FileEntry) (st : RunState) :
    ∃ tail, (walkFold b d st walk).errors = st.errors ++ tail := by
  induction walk generalizing st with
  | nil => exact ⟨[], by simp [walkFold]⟩
  | cons f rest ih =>
    rw [walkFold_cons]
    obtain ⟨t1, h1⟩ := processFile_errors_ext b d st f
    obtain ⟨t2, h2⟩ := ih (processFile b d st f)
    exact ⟨t1 ++ t2, by rw [h2, h1, List.append_assoc]⟩


theorem dirs_moveFile (fs : FS) (src dest : String) :
    (moveFile fs src dest).dirs = fs.dirs := by
  unfold moveFile
  split <;> rfl

theorem dirs_writeFile (fs : FS) (p : String) (c : Nat) :
    (writeFile fs p c).dirs = fs.dirs := rfl

theorem files_mkdirParents (fs : FS) (d : String) :
    (mkdirParents fs d).files = fs.files := rfl

theorem mem_insertDir_self (dirs : List String) (d : String) : d ∈ insertDir dirs d := by
  unfold insertDir
  split
  · exact List.mem_of_elem_eq_true (by assumption)
  · simp [List.concat_eq_append]

theorem mem_insertDir_of_mem (dirs : List String) (d x : String) (h : x ∈ dirs) :
    x ∈ insertDir dirs d := by
  unfold insertDir
  split
  · exact h
  · simp [List.concat_eq_append, h]

theorem insertDir_of_mem (dirs : List String) (d : String) (h : d ∈ dirs) :
    insertDir dirs d = dirs := by
  unfold insertDir
  rw [if_pos (List.elem_eq_true_of_mem h)]

theorem mem_foldl_insertDir_of_mem (l : List String) (dirs : List String) (x : String)
    (h : x ∈ dirs) : x ∈ l.foldl insertDir dirs := by
  induction l generalizing dirs with
  | nil => exact h
  | cons a t ih => exact ih _ (mem_insertDir_of_mem dirs a x h)

theorem mem_foldl_insertDir_self (l : List String) (dirs : List String) (x : String)
    (h : x ∈ l) : x ∈ l.foldl insertDir dirs := by
  induction l generalizing dirs with
  | nil => cases h
  | cons a t ih =>
    rcases List.mem_cons.mp h with h1 | h2
    · subst h1
      exact mem_foldl_insertDir_of_mem t _ x (mem_insertDir_self dirs x)
    · exact ih _ h2

theorem foldl_insertDir_of_all_mem (l : List String) (dirs : List String)
    (h : ∀ x ∈ l, x ∈ dirs) : l.foldl insertDir dirs = dirs := by
  induction l with
  | nil => rfl
  | cons a t ih =>
    have ha : a ∈ dirs := h a (List.mem_cons_self a t)
    simp only [List.foldl_cons, insertDir_of_mem dirs a ha]
    exact ih (fun x hx => h x (List.mem_cons_of_mem a hx))

/-- `mkdir(parents=True, exist_ok=True)` is idempotent: repeating the
creation changes nothing. -/
theorem mkdirParents_idem (fs : FS) (d : String) :
    mkdirParents (mkdirParents fs d) d = mkdirParents fs d := by
  have h : List.foldl insertDir (List.foldl insertDir fs.dirs (pathPrefixes d))
      (pathPrefixes d) = List.foldl insertDir fs.dirs (pathPrefixes d) :=
    foldl_insertDir_of_all_mem _ _ (fun x hx => mem_foldl_insertDir_self _ _ x hx)
  simp [mkdirParents, h]

theorem mem_dirs_mkdirParents (fs : FS) (d p : String) (h : p ∈ pathPrefixes d) :
    p ∈ (mkdirParents fs d).dirs :=
  mem_foldl_insertDir_self _ _ p h

theorem dirs_mono_mkdirParents (fs : FS) (d x : String) (h : x ∈ fs.dirs) :
    x ∈ (mkdirParents fs d).dirs :=
  mem_foldl_insertDir_of_mem _ _ x h

theorem dirs_mono_processFile (b : String) (d : Bool) (st : RunState) (f : FileEntry)
    (x : String) (h : x ∈ st.fs.dirs) : x ∈ (processFile b d st f).fs.dirs := by
  simp only [processFile]
  repeat' split
  all_goals simp only [dirs_moveFile]
  all_goals first
    | exact h
    | exact dirs_mono_mkdirParents _ _ x h

theorem dirs_mono_walkFold (b : String) (d : Bool) (walk : List FileEntry) (st : RunState)
    (x : String) (h : x ∈ st.fs.dirs) : x ∈ (walkFold b d st walk).fs.dirs := by
  induction walk generalizing st with
  | nil => exact h
  | cons f rest ih => exact ih _ (dirs_mono_processFile b d st f x h)

theorem processFile_dest_dirs (b : String) (d : Bool) (st : RunState) (f : FileEntry)
    (dt : DateTime)
    (haae : ¬ (strLower (pathSuffix f.name) = ".aae"))
    (hext : strLower (pathSuffix f.name) ∈ MEDIA_EXTENSIONS)
    (hdt : get_file_datetime f = Except.ok dt)
    (hmk : f.mkdirError = none)
    (p : String) (hp : p ∈ pathPrefixes (destDirOf b dt)) :
    p ∈ (processFile b d st f).fs.dirs := by
  simp only [processFile]
  rw [if_neg haae, if_neg (by simpa using hext)]
  simp only [hdt, hmk]
  repeat' split
  all_goals first
    | exact mem_dirs_mkdirParents _ _ p hp
    | (simp only [dirs_moveFile]; exact mem_dirs_mkdirParents _ _ p hp)

theorem processFileScript_moved_dry (b : String) (st : ScriptState) (f : FileEntry) :
    (processFileScript b true st f).moved = st.moved := by
  simp only [processFileScript]
  repeat' split
  all_goals first | rfl | simp_all

theorem scriptFold_moved_dry (b : String) (walk : List FileEntry) (st : ScriptState) :
    (walk.foldl (processFileScript b true) st).moved = st.moved := by
  induction walk generalizing st with
  | nil => rfl
  | cons f rest ih =>
    simp only [List.foldl_cons]
    rw [ih, processFileScript_moved_dry]

/-- When the source directory exists, `move_files` returns a result (it
never raises past the up-front check). -/
theorem move_files_ok (source_dir : String) (walk : List FileEntry) (base : String)
    (dry : Bool) (now : String) (fs : FS)
    (hsrc : fs.dirs.contains source_dir = true) :
    (move_files source_dir walk base dry now fs).1 =
      Except.ok (getResult (move_files source_dir walk base dry now fs)) := by
  have hmem : source_dir ∈ fs.dirs := List.mem_of_elem_eq_true hsrc
  simp [move_files, hmem, getResult]

theorem getResult_fields (source_dir : String) (walk : List FileEntry) (base : String)
    (dry : Bool) (now : String) (fs : FS)
    (hsrc : fs.dirs.contains source_dir = true) :
    getResult (move_files source_dir walk base dry now fs) =
      { scanned := (walkFold base dry (initState fs) walk).scanned,
        moved := (walkFold base dry (initState fs) walk).moved,
        skipped_aae := (walkFold base dry (initState fs) walk).skipped_aae,
        skipped_non_media := (walkFold base dry (initState fs) walk).skipped_non_media,
        skipped_non_media_files := (walkFold base dry (initState fs) walk).skipped_non_media_files,
        conflicts := (walkFold base dry (initState fs) walk).conflicts,
        errors := (walkFold base dry (initState fs) walk).errors,
        log := logPathOf base now } := by
  have hmem : source_dir ∈ fs.dirs := List.mem_of_elem_eq_true hsrc
  simp [move_files, hmem, getResult]

theorem move_files_fs (source_dir : String) (walk : List FileEntry) (base : String)
    (dry : Bool) (now : String) (fs : FS)
    (hsrc : fs.dirs.contains source_dir = true) :
    (move_files source_dir walk base dry now fs).2 =
      writeFile (mkdirParents (walkFold base dry (initState fs) walk).fs (logDirOf base))
        (logPathOf base now) logContent := by
  have hmem : source_dir ∈ fs.dirs := List.mem_of_elem_eq_true hsrc
  simp [move_files, hmem]

/-! ## Concrete sample runs (witnesses and counterexamples) -/

/-- A media file with a valid EXIF capture date (May 2023). -/
def sampleJpg : FileEntry :=
  { dir := "src", name := "a.jpg",
    exifRead := some (some "2023:05:14 10:00:00", none),
    mtime := ⟨2022, 11, 2, 0, 0, 0⟩,
    statError := none, mkdirError := none, moveError := none }

/-- A non-media file. -/
def sampleTxt : FileEntry :=
  { dir := "src", name := "readme.txt", exifRead := none,
    mtime := ⟨2022, 1, 1, 0, 0, 0⟩,
    statError := none, mkdirError := none, moveError := none }

/-- A media file whose EXIF date string does not parse. -/
def sampleBadExif : FileEntry :=
  { dir := "src", name := "b.jpg",
    exifRead := some (some "garbage", none),
    mtime := ⟨2021, 3, 4, 5, 6, 7⟩,
    statError := none, mkdirError := none, moveError := none }

/-- A media file whose `stat` call raises. -/
def sampleStatErr : FileEntry :=
  { dir := "src", name := "c.jpg", exifRead := none,
    mtime := ⟨2020, 1, 1, 0, 0, 0⟩,
    statError := some "boom", mkdirError := none, moveError := none }

/-- A filesystem holding just the walked media file. -/
def fs0 : FS := { files := [⟨"src/a.jpg", 7⟩], dirs := ["src"] }

/-- A filesystem where `sampleJpg`'s destination is already occupied. -/
def fsConflict : FS :=
  { files := [⟨"src/a.jpg", 7⟩, ⟨"D:/Foto/2023/05_mei/a.jpg", 9⟩], dirs := ["src"] }

/-! ## C1 -/

/-- C1 (counterexample): the bucket invariant fails on a dry run.  One
media file with a valid date and a free destination is scanned but lands
in no bucket when `dry_run = true`: `scanned = 1` while
`moved + skipped_aae + skipped_non_media + conflicts + errors = 0`. -/
theorem c1_counterexample :
    (getResult (move_files "src" [sampleJpg] "D:/Foto" true "t0" fs0)).scanned = 1 ∧
    bucketSum (getResult (move_files "src" [sampleJpg] "D:/Foto" true "t0" fs0)) = 0 ∧
    ¬ ((getResult (move_files "src" [sampleJpg] "D:/Foto" true "t0" fs0)).scanned =
        bucketSum (getResult (move_files "src" [sampleJpg] "D:/Foto" true "t0" fs0))) := by
  refine ⟨rfl, rfl, ?_⟩
  decide

/-- C1 (amended): for every run of `move_files` with `dry_run = false`,
the returned result satisfies
`scanned = moved + skipped_aae + skipped_non_media + conflicts + errors`:
every discovered file lands in exactly one bucket. -/
theorem c1_bucket_invariant_real_run (source : String) (walk : List FileEntry)
    (base now : String) (fs : FS)
    (hsrc : fs.dirs.contains source = true) :
    (getResult (move_files source walk base false now fs)).scanned =
      bucketSum (getResult (move_files source walk base false now fs)) := by
  rw [getResult_fields source walk base false now fs hsrc]
  have h1 : (walkFold base false (initState fs) walk).scanned = walk.length := by
    rw [walkFold_scanned]
    simp [initState]
  have h2 : stateBucketSum (walkFold base false (initState fs) walk) = walk.length := by
    rw [walkFold_bucket]
    simp [stateBucketSum, initState]
  simp only [bucketSum]
  simp only [stateBucketSum] at h2
  omega

/-- Witness for C1 (amended) at a concrete real run. -/
theorem c1_bucket_invariant_real_run_witness :
    (getResult (move_files "src" [sampleJpg, sampleTxt] "D:/Foto" false "t0" fs0)).scanned =
      bucketSum (getResult (move_files "src" [sampleJpg, sampleTxt] "D:/Foto" false "t0" fs0)) :=
  c1_bucket_invariant_real_run "src" [sampleJpg, sampleTxt] "D:/Foto" "t0" fs0 (by decide)

/-! ## C2 -/

/-- C2: when the computed destination already exists, a run on that file
records exactly the conflict (source path, intended destination), moves
nothing, records no error, and leaves every existing file object — the
source file in particular — untouched (only the run log is written). -/
theorem c2_conflict_leaves_source_in_place
    (f : FileEntry) (fs : FS) (source base now : String) (dt : DateTime) (c : Nat) (dry : Bool)
    (hsrc : fs.dirs.contains source = true)
    (haae : ¬ (strLower (pathSuffix f.name) = ".aae"))
    (hext : strLower (pathSuffix f.name) ∈ MEDIA_EXTENSIONS)
    (hdt : get_file_datetime f = Except.ok dt)
    (hmk : f.mkdirError = none)
    (hconf : fileExists fs (destDirOf base dt ++ "/" ++ f.name) = true)
    (hin : FileObj.mk (srcPath f) c ∈ fs.files)
    (hne : ¬ (srcPath f = logPathOf base now)) :
    (getResult (move_files source [f] base dry now fs)).conflicts =
      [⟨srcPath f, destDirOf base dt ++ "/" ++ f.name⟩] ∧
    (getResult (move_files source [f] base dry now fs)).moved = 0 ∧
    (getResult (move_files source [f] base dry now fs)).errors = [] ∧
    (move_files source [f] base dry now fs).2.files =
      (fs.files.filter (fun o => ¬ (o.path = logPathOf base now))) ++
        [⟨logPathOf base now, logContent⟩] ∧
    FileObj.mk (srcPath f) c ∈ (move_files source [f] base dry now fs).2.files := by
  have hstep : walkFold base dry (initState fs) [f] =
      { initState fs with
          scanned := 1,
          fs := mkdirParents fs (destDirOf base dt),
          conflicts := [⟨srcPath f, destDirOf base dt ++ "/" ++ f.name⟩] } := by
    show processFile base dry (initState fs) f = _
    rw [processFile_conflict base dry (initState fs) f dt haae hext hdt hmk hconf]
    simp [initState]
  have hfiles : (move_files source [f] base dry now fs).2.files =
      (fs.files.filter (fun o => ¬ (o.path = logPathOf base now))) ++
        [⟨logPathOf base now, logContent⟩] := by
    rw [move_files_fs source [f] base dry now fs hsrc, hstep]
    simp [writeFile, files_mkdirParents, initState]
  refine ⟨?_, ?_, ?_, hfiles, ?_⟩
  · rw [getResult_fields source [f] base dry now fs hsrc, hstep]
  · rw [getResult_fields source [f] base dry now fs hsrc, hstep]
    simp [initState]
  · rw [getResult_fields source [f] base dry now fs hsrc, hstep]
    simp [initState]
  · rw [hfiles]
    refine List.mem_append_left _ ?_
    refine List.mem_filter.mpr ⟨hin, ?_⟩
    simpa using hne

/-- Witness for C2: destination `D:/Foto/2023/05_mei/a.jpg` already
holds a file; the source `src/a.jpg` survives the run at its path with
its content. -/
theorem c2_conflict_leaves_source_in_place_witness :
    (getResult (move_files "src" [sampleJpg] "D:/Foto" false "t0" fsConflict)).conflicts =
      [⟨"src/a.jpg", "D:/Foto/2023/05_mei/a.jpg"⟩] ∧
    (getResult (move_files "src" [sampleJpg] "D:/Foto" false "t0" fsConflict)).moved = 0 ∧
    FileObj.mk "src/a.jpg" 7 ∈ (move_files "src" [sampleJpg] "D:/Foto" false "t0" fsConflict).2.files := by
  have h := c2_conflict_leaves_source_in_place sampleJpg fsConflict "src" "D:/Foto" "t0"
    ⟨2023, 5, 14, 10, 0, 0⟩ 7 false (by decide) (by decide) (by decide) rfl rfl
    (by decide) (by decide) (by decide)
  exact ⟨h.1, h.2.1, h.2.2.2.2⟩

/-! ## C3 -/

/-- C3 (counterexample): a dry run does mutate the filesystem.  With one
media file, `move_files` with `dry_run = true` creates the destination
directory `D:/Foto/2023/05_mei` (absent beforehand) and writes the run
log file, so "creates or modifies no file or directory" fails. -/
theorem c3_counterexample :
    "D:/Foto/2023/05_mei" ∈ (move_files "src" [sampleJpg] "D:/Foto" true "t0" fs0).2.dirs ∧
    ¬ ("D:/Foto/2023/05_mei" ∈ fs0.dirs) ∧
    FileObj.mk "D:/Foto/_move_logs/move_log_t0.txt" logContent ∈
      (move_files "src" [sampleJpg] "D:/Foto" true "t0" fs0).2.files ∧
    ¬ ((move_files "src" [sampleJpg] "D:/Foto" true "t0" fs0).2 = fs0) := by
  refine ⟨?_, ?_, ?_, ?_⟩ <;> decide

/-- C3 (amended): a dry run moves no file and increments no moved
counter; the set of file objects is unchanged except that the run log is
written, so every pre-existing file — in particular the whole tree under
`source_dir` — is untouched byte for byte.  (Destination directories and
the log directory may still be created, and the log file is written.) -/
theorem c3_dry_run_moves_nothing (source : String) (walk : List FileEntry)
    (base now : String) (fs : FS)
    (hsrc : fs.dirs.contains source = true) :
    (getResult (move_files source walk base true now fs)).moved = 0 ∧
    (move_files source walk base true now fs).2.files =
      (fs.files.filter (fun o => ¬ (o.path = logPathOf base now))) ++
        [⟨logPathOf base now, logContent⟩] ∧
    ∀ o ∈ fs.files, ¬ (o.path = logPathOf base now) →
      o ∈ (move_files source walk base true now fs).2.files := by
  have hmoved : (getResult (move_files source walk base true now fs)).moved = 0 := by
    rw [getResult_fields source walk base true now fs hsrc]
    show (walkFold base true (initState fs) walk).moved = 0
    rw [walkFold_moved_dry]
    rfl
  have hfiles : (move_files source walk base true now fs).2.files =
      (fs.files.filter (fun o => ¬ (o.path = logPathOf base now))) ++
        [⟨logPathOf base now, logContent⟩] := by
    rw [move_files_fs source walk base true now fs hsrc]
    simp only [writeFile, files_mkdirParents, walkFold_files_dry]
    rfl
  refine ⟨hmoved, hfiles, ?_⟩
  intro o ho hne
  rw [hfiles]
  refine List.mem_append_left _ (List.mem_filter.mpr ⟨ho, ?_⟩)
  simpa using hne

/-- Witness for C3 (amended) at a concrete dry run. -/
theorem c3_dry_run_moves_nothing_witness :
    (getResult (move_files "src" [sampleJpg, sampleTxt] "D:/Foto" true "t0" fs0)).moved = 0 ∧
    FileObj.mk "src/a.jpg" 7 ∈ (move_files "src" [sampleJpg, sampleTxt] "D:/Foto" true "t0" fs0).2.files := by
  have h := c3_dry_run_moves_nothing "src" [sampleJpg, sampleTxt] "D:/Foto" "t0" fs0 (by decide)
  exact ⟨h.1, h.2.2 ⟨"src/a.jpg", 7⟩ (by decide) (by decide)⟩

/-! ## C4 -/

/-- Projection of a script run to its printed summary (a default record
on the missing-source case; theorems assert `some` separately). -/
def getSummary (p : Option ScriptSummary × FS) : ScriptSummary :=
  match p.1 with
  | some s => s
  | none => { moved := 0, skipped_aae := 0, skipped_non_media := 0,
              conflicts := [], errors := [], log := "" }

/-- C4 (counterexample): the two implementations do not disagree on
dry-run counting.  On a dry run over one media file that is neither
skipped, conflicting nor failing — so it reaches the simulated-move
branch — core.py reports `moved = 0` and the script also reports
`moved = 0`: neither increments the moved counter on a simulated move. -/
theorem c4_counterexample :
    (getResult (move_files "src" [sampleJpg] "D:/Foto" true "t0" fs0)).scanned = 1 ∧
    (getResult (move_files "src" [sampleJpg] "D:/Foto" true "t0" fs0)).skipped_aae = 0 ∧
    (getResult (move_files "src" [sampleJpg] "D:/Foto" true "t0" fs0)).skipped_non_media = 0 ∧
    (getResult (move_files "src" [sampleJpg] "D:/Foto" true "t0" fs0)).conflicts = [] ∧
    (getResult (move_files "src" [sampleJpg] "D:/Foto" true "t0" fs0)).errors = [] ∧
    (getResult (move_files "src" [sampleJpg] "D:/Foto" true "t0" fs0)).moved = 0 ∧
    (move_files_script "src" [sampleJpg] "D:/Foto" true "t0" fs0).1 =
      some (getSummary (move_files_script "src" [sampleJpg] "D:/Foto" true "t0" fs0)) ∧
    (getSummary (move_files_script "src" [sampleJpg] "D:/Foto" true "t0" fs0)).moved = 0 := by
  refine ⟨?_, ?_, ?_, ?_, ?_, ?_, ?_, ?_⟩ <;> rfl

/-- C4 (amended): the two reference implementations agree on dry-run
counting — neither core.py's `move_files` nor the standalone script's
increments the moved counter on a simulated move; every dry run reports
`moved = 0` from both, matching the spec's stricter reading. -/
theorem c4_dry_run_agreement (source : String) (walk : List FileEntry)
    (base now : String) (fs : FS) :
    (getResult (move_files source walk base true now fs)).moved = 0 ∧
    (getSummary (move_files_script source walk base true now fs)).moved = 0 := by
  constructor
  · by_cases h : fs.dirs.contains source = true
    · rw [getResult_fields source walk base true now fs h]
      show (walkFold base true (initState fs) walk).moved = 0
      rw [walkFold_moved_dry]
      rfl
    · have hmem : ¬ (source ∈ fs.dirs) := by
        intro hm
        exact h (List.elem_eq_true_of_mem hm)
      simp [move_files, getResult, hmem]
  · by_cases h : source ∈ fs.dirs
    · simp [move_files_script, getSummary, h, scriptFold_moved_dry]
    · simp [move_files_script, getSummary, h]

/-! ## C5 -/

/-- C5: timestamp resolution never fails.  Under any EXIF outcome —
`Image.open` raising, absent or falsy EXIF data, a missing time field,
or a parse failure, all of which make `get_exif_datetime_taken` return
`none` — `get_file_datetime` returns a timestamp, and whenever the EXIF
path yields nothing it falls through to the filesystem modification
time.  (The fallback reads `path.stat()`, modelled by `statError = none`
for a file that the walk just listed.) -/
theorem c5_timestamp_resolution_never_fails (f : FileEntry)
    (hstat : f.statError = none) :
    (∃ dt, get_file_datetime f = Except.ok dt) ∧
    (get_exif_datetime_taken f = none → get_file_datetime f = Except.ok f.mtime) := by
  constructor
  · unfold get_file_datetime
    split
    · cases hx : get_exif_datetime_taken f with
      | none => exact ⟨f.mtime, by simp [hx, statMtime, hstat]⟩
      | some dt => exact ⟨dt, by simp [hx]⟩
    · exact ⟨f.mtime, by simp [statMtime, hstat]⟩
  · intro hx
    unfold get_file_datetime
    split
    · simp [hx, statMtime, hstat]
    · simp [statMtime, hstat]

/-- Witness for C5: a media file whose EXIF date string fails to parse
resolves to its modification time without failing. -/
theorem c5_timestamp_resolution_never_fails_witness :
    get_file_datetime sampleBadExif = Except.ok sampleBadExif.mtime :=
  (c5_timestamp_resolution_never_fails sampleBadExif rfl).2 (by decide)

/-! ## C6 -/

/-- C6: when `source_dir` does not exist as a directory, `move_files`
fails with the not-found error and the filesystem is returned exactly as
it was — no file moved, no directory created, no log written; the check
precedes every side effect. -/
theorem c6_missing_source_checked_up_front (source : String) (walk : List FileEntry)
    (base : String) (dry : Bool) (now : String) (fs : FS)
    (h : fs.dirs.contains source = false) :
    move_files source walk base dry now fs =
      (Except.error ("Source directory not found: " ++ source), fs) := by
  have hmem : ¬ (source ∈ fs.dirs) := by
    intro hm
    simp only [List.contains] at h
    rw [List.elem_eq_true_of_mem hm] at h
    cases h
  simp [move_files, hmem]

/-- Witness for C6 at a concrete missing source. -/
theorem c6_missing_source_checked_up_front_witness :
    move_files "missing" [sampleJpg] "D:/Foto" false "t0" fs0 =
      (Except.error ("Source directory not found: " ++ "missing"), fs0) :=
  c6_missing_source_checked_up_front "missing" [sampleJpg] "D:/Foto" false "t0" fs0 (by decide)

/-! ## C7 -/

/-- If processing the first walked file records exactly the error list
`[e]`, the whole run's result still carries `e` (later files only append
to the error list). -/
theorem run_errors_head (source base now : String) (dry : Bool) (fs : FS)
    (f : FileEntry) (rest : List FileEntry) (e : ErrEntry)
    (hsrc : fs.dirs.contains source = true)
    (herrs : (processFile base dry (initState fs) f).errors = [e]) :
    e ∈ (getResult (move_files source (f :: rest) base dry now fs)).errors := by
  rw [getResult_fields source (f :: rest) base dry now fs hsrc]
  show e ∈ (walkFold base dry (initState fs) (f :: rest)).errors
  rw [walkFold_cons]
  obtain ⟨tail, htail⟩ :=
    walkFold_errors_ext base dry rest (processFile base dry (initState fs) f)
  rw [htail, herrs]
  simp

/-- C7: a per-file exception never aborts the run.  Whichever step of
placing one media file raises — timestamp resolution (`stat`), directory
creation (`mkdir`), or the move itself — `move_files` records an Error
keyed by the source path with the error message, still scans every
remaining file, and returns a result normally. -/
theorem c7_per_file_error_isolation (source base now : String) (dry : Bool) (fs : FS)
    (f : FileEntry) (rest : List FileEntry)
    (hsrc : fs.dirs.contains source = true)
    (haae : ¬ (strLower (pathSuffix f.name) = ".aae"))
    (hext : strLower (pathSuffix f.name) ∈ MEDIA_EXTENSIONS) :
    (∀ msg, get_file_datetime f = Except.error msg →
      ErrEntry.mk (srcPath f) msg ∈
        (getResult (move_files source (f :: rest) base dry now fs)).errors) ∧
    (∀ dt msg, get_file_datetime f = Except.ok dt → f.mkdirError = some msg →
      ErrEntry.mk (srcPath f) msg ∈
        (getResult (move_files source (f :: rest) base dry now fs)).errors) ∧
    (∀ dt msg, get_file_datetime f = Except.ok dt → f.mkdirError = none →
      fileExists fs (destDirOf base dt ++ "/" ++ f.name) = false → f.moveError = some msg →
      ErrEntry.mk (srcPath f) msg ∈
        (getResult (move_files source (f :: rest) base false now fs)).errors) ∧
    (getResult (move_files source (f :: rest) base dry now fs)).scanned = rest.length + 1 ∧
    (move_files source (f :: rest) base dry now fs).1 =
      Except.ok (getResult (move_files source (f :: rest) base dry now fs)) := by
  refine ⟨?_, ?_, ?_, ?_, move_files_ok source (f :: rest) base dry now fs hsrc⟩
  · intro msg hdt
    refine run_errors_head source base now dry fs f rest _ hsrc ?_
    rw [processFile_resolve_error base dry (initState fs) f msg haae hext hdt]
    simp [initState]
  · intro dt msg hdt hmk
    refine run_errors_head source base now dry fs f rest _ hsrc ?_
    rw [processFile_mkdir_error base dry (initState fs) f dt msg haae hext hdt hmk]
    simp [initState]
  · intro dt msg hdt hmk hconf hmv
    refine run_errors_head source base now false fs f rest _ hsrc ?_
    rw [processFile_move_error base (initState fs) f dt msg haae hext hdt hmk hconf hmv]
    simp [initState]
  · rw [getResult_fields source (f :: rest) base dry now fs hsrc]
    show (walkFold base dry (initState fs) (f :: rest)).scanned = rest.length + 1
    rw [walkFold_scanned]
    simp [initState]

/-- Witness for C7: a media file whose `stat` raises "boom" is recorded
as an error and the following file is still scanned. -/
theorem c7_per_file_error_isolation_witness :
    ErrEntry.mk "src/c.jpg" "boom" ∈
      (getResult (move_files "src" [sampleStatErr, sampleTxt] "D:/Foto" false "t0" fs0)).errors ∧
    (getResult (move_files "src" [sampleStatErr, sampleTxt] "D:/Foto" false "t0" fs0)).scanned = 2 := by
  have h := c7_per_file_error_isolation "src" "D:/Foto" "t0" false fs0 sampleStatErr [sampleTxt]
    (by decide) (by decide) (by decide)
  exact ⟨h.1 "boom" rfl, h.2.2.2.1⟩

/-! ## C8 -/

/-- Lexicographic order on character lists (the order file browsers sort
folder names by). -/
def charListLt : List Char → List Char → Bool
  | [], [] => false
  | [], _ :: _ => true
  | _ :: _, [] => false
  | a :: as, b :: bs =>
    if a < b then true
    else if b < a then false
    else charListLt as bs

/-- Lexicographic order on strings. -/
def strLt (s t : String) : Bool := charListLt s.data t.data

/-- The zero-padded two-digit decimal rendering of a month number. -/
def natPad2 (m : Nat) : String :=
  if m < 10 then "0" ++ toString m else toString m

/-- C8: `month_folder_name` is a pure, total function of the month
number: it returns entry `m` of the fixed 12-entry `DUTCH_MONTHS` table,
whose entries start with the zero-padded two-digit month number (month 5
maps to "05_mei"), and lexicographic order of the folder names agrees
with chronological (month-number) order. -/
theorem c8_month_folder_name_table (m m2 : Nat)
    (h1 : 1 ≤ m) (h2 : m ≤ 12) (h3 : 1 ≤ m2) (h4 : m2 ≤ 12) :
    DUTCH_MONTHS.length = 12 ∧
    (∀ dt : DateTime, dt.month = m → month_folder_name dt = DUTCH_MONTHS.getD (m - 1) "") ∧
    (month_folder_name ⟨2000, m, 1, 0, 0, 0⟩).data.take 2 = (natPad2 m).data ∧
    (m < m2 ↔ strLt (month_folder_name ⟨2000, m, 1, 0, 0, 0⟩)
        (month_folder_name ⟨2000, m2, 1, 0, 0, 0⟩) = true) ∧
    month_folder_name ⟨2000, 5, 1, 0, 0, 0⟩ = "05_mei" := by
  refine ⟨by decide, ?_, ?_, ?_, by decide⟩
  · intro dt hdt
    unfold month_folder_name
    rw [hdt]
  · interval_cases m <;> decide
  · interval_cases m <;> interval_cases m2 <;> decide

/-- Witness for C8 at months 5 and 11. -/
theorem c8_month_folder_name_table_witness :
    month_folder_name ⟨2000, 5, 1, 0, 0, 0⟩ = "05_mei" ∧
    (month_folder_name ⟨2000, 5, 1, 0, 0, 0⟩).data.take 2 = (natPad2 5).data ∧
    strLt (month_folder_name ⟨2000, 5, 1, 0, 0, 0⟩) (month_folder_name ⟨2000, 11, 1, 0, 0, 0⟩) = true := by
  have h := c8_month_folder_name_table 5 11 (by decide) (by decide) (by decide) (by decide)
  exact ⟨h.2.2.2.2, h.2.2.1, h.2.2.2.1.mp (by decide)⟩

/-! ## C9 -/

/-- C9: a file whose lower-cased extension is neither in the media set
nor the sidecar extension is never moved: the run counts it in the
non-media-skip counter, records its full path in the skipped list,
touches no file (only the log is written), and the CLI's report previews
at most 20 of the recorded paths. -/
theorem c9_non_media_skipped (f : FileEntry) (fs : FS) (source base now : String) (dry : Bool)
    (hsrc : fs.dirs.contains source = true)
    (haae : ¬ (strLower (pathSuffix f.name) = ".aae"))
    (hext : ¬ (strLower (pathSuffix f.name) ∈ MEDIA_EXTENSIONS)) :
    getResult (move_files source [f] base dry now fs) =
      { scanned := 1, moved := 0, skipped_aae := 0, skipped_non_media := 1,
        skipped_non_media_files := [srcPath f], conflicts := [], errors := [],
        log := logPathOf base now } ∧
    (move_files source [f] base dry now fs).2.files =
      (fs.files.filter (fun o => ¬ (o.path = logPathOf base now))) ++
        [⟨logPathOf base now, logContent⟩] ∧
    (cliPreview (getResult (move_files source [f] base dry now fs))).length ≤ 20 ∧
    (∀ res : OperationResult, (cliPreview res).length ≤ 20) := by
  have hstep : walkFold base dry (initState fs) [f] =
      { initState fs with
          scanned := 1,
          skipped_non_media := 1,
          skipped_non_media_files := [srcPath f] } := by
    show processFile base dry (initState fs) f = _
    rw [processFile_nonmedia base dry (initState fs) f haae hext]
    simp [initState]
  have hres : getResult (move_files source [f] base dry now fs) =
      { scanned := 1, moved := 0, skipped_aae := 0, skipped_non_media := 1,
        skipped_non_media_files := [srcPath f], conflicts := [], errors := [],
        log := logPathOf base now } := by
    rw [getResult_fields source [f] base dry now fs hsrc, hstep]
    simp [initState]
  refine ⟨hres, ?_, ?_, ?_⟩
  · rw [move_files_fs source [f] base dry now fs hsrc, hstep]
    simp [writeFile, files_mkdirParents, initState]
  · rw [hres]
    simp [cliPreview]
  · intro res
    simp only [cliPreview, List.length_take]
    exact min_le_left _ _

/-- Witness for C9: `readme.txt` is skipped as non-media and stays in
place. -/
theorem c9_non_media_skipped_witness :
    getResult (move_files "src" [sampleTxt] "D:/Foto" false "t0" fs0) =
      { scanned := 1, moved := 0, skipped_aae := 0, skipped_non_media := 1,
        skipped_non_media_files := ["src/readme.txt"], conflicts := [], errors := [],
        log := "D:/Foto/_move_logs/move_log_t0.txt" } := by
  have h := c9_non_media_skipped sampleTxt fs0 "src" "D:/Foto" "t0" false
    (by decide) (by decide) (by decide)
  rw [h.1]
  rfl

/-! ## C10 -/

theorem walkFold_append (b : String) (d : Bool) (st : RunState)
    (l1 l2 : List FileEntry) :
    walkFold b d st (l1 ++ l2) = walkFold b d (walkFold b d st l1) l2 := by
  simp [walkFold, List.foldl_append]

/-- C10: for a file classified as Media (with a resolved timestamp and a
succeeding `mkdir`), `move_files` creates the destination directory
`base/<year>/<month-folder>` with its parents before the
destination-exists check and before the dry-run branch: whatever the
file's outcome — conflict, simulated move or real move — the directory
(and every parent prefix) exists afterwards, and the creation is
idempotent. -/
theorem c10_dest_dir_created_early (source base now : String) (dry : Bool) (fs : FS)
    (l1 l2 : List FileEntry) (f : FileEntry) (dt : DateTime)
    (hsrc : fs.dirs.contains source = true)
    (haae : ¬ (strLower (pathSuffix f.name) = ".aae"))
    (hext : strLower (pathSuffix f.name) ∈ MEDIA_EXTENSIONS)
    (hdt : get_file_datetime f = Except.ok dt)
    (hmk : f.mkdirError = none) :
    (∀ p ∈ pathPrefixes (destDirOf base dt),
      p ∈ (move_files source (l1 ++ f :: l2) base dry now fs).2.dirs) ∧
    (∀ fs2 : FS,
      mkdirParents (mkdirParents fs2 (destDirOf base dt)) (destDirOf base dt) =
        mkdirParents fs2 (destDirOf base dt)) := by
  refine ⟨?_, fun fs2 => mkdirParents_idem fs2 (destDirOf base dt)⟩
  intro p hp
  rw [move_files_fs source (l1 ++ f :: l2) base dry now fs hsrc]
  rw [dirs_writeFile]
  refine dirs_mono_mkdirParents _ _ p ?_
  rw [walkFold_append, walkFold_cons]
  refine dirs_mono_walkFold base dry l2 _ p ?_
  exact processFile_dest_dirs base dry (walkFold base dry (initState fs) l1) f dt
    haae hext hdt hmk p hp

/-- Witness for C10: in a dry run the destination directory
`D:/Foto/2023/05_mei` is created although no file is moved. -/
theorem c10_dest_dir_created_early_witness :
    "D:/Foto/2023/05_mei" ∈ (move_files "src" ([] ++ sampleJpg :: []) "D:/Foto" true "t0" fs0).2.dirs ∧
    mkdirParents (mkdirParents fs0 (destDirOf "D:/Foto" ⟨2023, 5, 14, 10, 0, 0⟩))
        (destDirOf "D:/Foto" ⟨2023, 5, 14, 10, 0, 0⟩) =
      mkdirParents fs0 (destDirOf "D:/Foto" ⟨2023, 5, 14, 10, 0, 0⟩) := by
  have h := c10_dest_dir_created_early "src" "D:/Foto" "t0" true fs0 [] [] sampleJpg
    ⟨2023, 5, 14, 10, 0, 0⟩ (by decide) (by decide) (by decide) rfl rfl
  exact ⟨h.1 "D:/Foto/2023/05_mei" (by decide), h.2 fs0⟩
